import Mathlib

/-!
Verification of the payment reconciliation core of the mpesa-invoice-app
backend.  The definitions below are a shallow embedding of the JavaScript
source: the Sequelize records become Lean structures, the database becomes an
explicit pair of lists, and the three stateful operations
(`mpesaService.handleCallback`, `paymentController.checkPaymentStatus`,
`paymentController.initiatePayment`) become pure functions from a database
state and the relevant request data to a new database state plus a result.

Provider result codes appear in the source both as JS numbers (the callback
payload compares `resultCode === 0`) and as numeric strings (the status query
compares resultCode against the string forms of 0 and 1032); both denote the same numeric
code, so the embedding uses `Nat` uniformly for them.  Monetary amounts
(DECIMAL(10,2) columns, compared and summed directly in the source) are
modelled as `Int`.
-/

/-- Payment.status enum from models/Payment.js. -/
inductive PayStatus
  | pending
  | processing
  | completed
  | failed
  | cancelled
deriving DecidableEq, Repr

/-- Invoice.status enum from the Invoice model. -/
inductive InvStatus
  | draft
  | sent
  | paid
  | overdue
  | cancelled
deriving DecidableEq, Repr

/-- A JS value occurring in a callback metadata item: string or number. -/
inductive JVal
  | str (s : String)
  | num (n : Int)
deriving DecidableEq, Repr

/-- JS truthiness for the values that reach `x ? _ : _` and `x || d`. -/
def JVal.truthy : JVal → Bool
  | .str s => s ≠ ""
  | .num n => n ≠ 0

/-- The value stored in the result_code column.  The callback and poll paths
store the numeric provider code; the initiation failure path stores the
provider error code string (or the literal UNKNOWN_ERROR). -/
inductive RCode
  | num (n : Nat)
  | txt (s : String)
deriving DecidableEq, Repr

/-- The value stored in the transaction_time column: the callback path stores
new Date(transactionDate), the poll path stores the raw TransactionDate. -/
inductive TxTime
  | date (v : JVal)
  | raw (v : JVal)
deriving DecidableEq, Repr

/-- One `{Name, Value}` pair of the CallbackMetadata.Item list. -/
structure MetaItem where
  itemName : String
  value : JVal
deriving DecidableEq, Repr

/-- The Body.stkCallback part of the provider callback envelope. -/
structure StkCallback where
  checkoutRequestID : String
  resultCode : Nat
  resultDesc : String
  callbackMetadata : Option (List MetaItem)
deriving DecidableEq, Repr

/-- The provider callback envelope (callbackData.Body.stkCallback). -/
structure CallbackData where
  stkCallback : StkCallback
deriving DecidableEq, Repr

/-- The provider status query response (response.data of checkPaymentStatus
in mpesa.service.js).  The receipt and transaction date fields are absent in
an actual query response, so they are optional here. -/
structure QueryData where
  resultCode : Nat
  resultDesc : String
  mpesaReceiptNumber : Option String
  transactionDate : Option JVal
deriving DecidableEq, Repr

/-- A row of the payments table (models/Payment.js), restricted to the
columns the reconciliation core reads or writes. -/
structure Payment where
  id : Nat
  amount : Int
  mpesa_receipt : Option String
  phone_number : String
  transaction_time : Option TxTime
  status : PayStatus
  checkout_request_id : Option String
  merchant_request_id : Option String
  result_code : Option RCode
  result_desc : Option String
  callback_metadata : Option CallbackData
  invoice_id : Nat
  user_id : Nat
deriving DecidableEq, Repr

/-- A row of the invoices table (Invoice model), balance-relevant columns. -/
structure Invoice where
  id : Nat
  invoice_number : String
  amount : Int
  status : InvStatus
  user_id : Nat
deriving DecidableEq, Repr

/-- The persistent state the reconciliation core touches. -/
structure DB where
  payments : List Payment
  invoices : List Invoice
deriving DecidableEq, Repr

/-- Payment.findOne({where: {checkout_request_id: cid}}). -/
def findPaymentByCheckout (db : DB) (cid : String) : Option Payment :=
  db.payments.find? (fun q => q.checkout_request_id = some cid)

/-- Invoice lookup by primary key (payment.getInvoice() / the include). -/
def findInvoiceById (db : DB) (invId : Nat) : Option Invoice :=
  db.invoices.find? (fun v => v.id = invId)

/-- Invoice.findOne({where: {id: invoiceId, user_id: userId}}). -/
def findInvoiceOwned (db : DB) (invId userId : Nat) : Option Invoice :=
  db.invoices.find? (fun v => v.id = invId ∧ v.user_id = userId)

/-- payment.update(...): persist a mutated payment row (keyed by primary
key). -/
def updatePayment (db : DB) (p : Payment) : DB :=
  { db with payments := db.payments.map (fun q => if q.id = p.id then p else q) }

/-- invoice.update({status: s}). -/
def setInvoiceStatus (db : DB) (invId : Nat) (s : InvStatus) : DB :=
  { db with invoices :=
      db.invoices.map (fun v => if v.id = invId then { v with status := s } else v) }

/-- Payment.sum on amount, over rows with the given invoice_id and status
completed. -/
def sumCompleted (db : DB) (invId : Nat) : Int :=
  ((db.payments.filter
      (fun p => p.invoice_id = invId ∧ p.status = PayStatus.completed)).map
    Payment.amount).sum

/-- metadata.find(item => item.Name === key)?.Value . -/
def metaValue (md : List MetaItem) (key : String) : Option JVal :=
  (md.find? (fun i => i.itemName = key)).map MetaItem.value

/-- metadata.find(...)?.Value with an empty-string default, followed by
storage in a string column:
missing or falsy values give the empty string, numbers are stringified. -/
def metaStr (md : List MetaItem) (key : String) : String :=
  match metaValue md key with
  | some (.str s) => s
  | some (.num n) => if n = 0 then "" else toString n
  | none => ""

/-- metadata.find(item => item.Name === Amount)?.Value with default 0,
followed by
storage in a numeric column. -/
def metaAmount (md : List MetaItem) : Int :=
  match metaValue md "Amount" with
  | some (.num n) => n
  | some (.str s) => if s = "" then 0 else (s.toInt?).getD 0
  | none => 0

/-- transactionDate ? new Date(transactionDate) : null, where transactionDate
is the TransactionDate metadata value with an empty-string default. -/
def metaTxDate (md : List MetaItem) : Option JVal :=
  match metaValue md "TransactionDate" with
  | some v => if v.truthy then some v else none
  | none => none

/-- The payment.update performed by the success branch of handleCallback in
mpesa.service.js (lines 307-324): note that it overwrites amount and
phone_number with metadata-derived values. -/
def applySuccess (payment : Payment) (cbData : CallbackData) : Payment :=
  let metadata := cbData.stkCallback.callbackMetadata.getD []
  { payment with
    status := PayStatus.completed
    mpesa_receipt := some (metaStr metadata "MpesaReceiptNumber")
    amount := metaAmount metadata
    phone_number := metaStr metadata "PhoneNumber"
    transaction_time := (metaTxDate metadata).map TxTime.date
    result_code := some (RCode.num cbData.stkCallback.resultCode)
    result_desc := some cbData.stkCallback.resultDesc
    callback_metadata := some cbData }

/-- The payment.update performed by the failure branch of handleCallback. -/
def applyFailureCb (payment : Payment) (cbData : CallbackData) : Payment :=
  { payment with
    status := PayStatus.failed
    result_code := some (RCode.num cbData.stkCallback.resultCode)
    result_desc := some cbData.stkCallback.resultDesc
    callback_metadata := some cbData }

/-- The inline invoice recomputation shared by handleCallback and
checkPaymentStatus: sum completed attempts and mark the invoice paid when the
sum reaches its amount, otherwise leave the database unchanged. -/
def settleInvoiceIfPaid (db : DB) (invoice : Invoice) : DB :=
  if sumCompleted db invoice.id ≥ invoice.amount then
    setInvoiceStatus db invoice.id InvStatus.paid
  else db

/-- The result value of handleCallback: {success: true} or
{success: false, error}. -/
inductive HandleResult
  | ok
  | failure (error : String)
deriving DecidableEq, Repr

/-- handleCallback from mpesa.service.js (lines 290-353).  The JS wraps the
body in try/catch and returns {success:false, error} on an exception; the one
reachable exception is reading .id on a null invoice from getInvoice, modelled
by the none case of the invoice lookup (which happens after the payment update
has been persisted). -/
def handleCallback (db : DB) (cbData : CallbackData) : DB × HandleResult :=
  match findPaymentByCheckout db cbData.stkCallback.checkoutRequestID with
  | none => (db, HandleResult.failure "Payment not found")
  | some payment =>
    if cbData.stkCallback.resultCode = 0 then
      let db1 := updatePayment db (applySuccess payment cbData)
      match findInvoiceById db1 payment.invoice_id with
      | none => (db1, HandleResult.failure "Cannot read properties of null")
      | some invoice => (settleInvoiceIfPaid db1 invoice, HandleResult.ok)
    else
      (updatePayment db (applyFailureCb payment cbData), HandleResult.ok)

/-- The acknowledgement the callback endpoint sends to the provider. -/
structure CallbackAck where
  resultCode : Nat
  resultDesc : String
  httpStatus : Nat
deriving DecidableEq, Repr

/-- mpesaCallback from payment.controller.js (lines 188-212): it awaits
handleCallback, ignores its returned value, and acknowledges with ResultCode
0; the ResultCode 1 branch is reachable only when handleCallback throws,
which its own try/catch prevents. -/
def mpesaCallback (db : DB) (cbData : CallbackData) : DB × CallbackAck :=
  let r := handleCallback db cbData
  (r.1, { resultCode := 0
          resultDesc := "Callback processed successfully"
          httpStatus := 200 })

/-- The error taxonomy of middleware/errorHandler.js. -/
inductive ApiErr
  | notFound (message : String)
  | badRequest (message : String)
  | unauthorized (message : String)
  | forbidden (message : String)
  | conflictErr (message : String)
  | internal (message : String)
deriving DecidableEq, Repr

/-- The HTTP status each error class carries (errorHandler.js): NotFoundError
404, BadRequestError 400, UnauthorizedError 401, ForbiddenError 403,
ConflictError 409; unexpected faults surface as 500. -/
def ApiErr.statusCode : ApiErr → Nat
  | .notFound _ => 404
  | .badRequest _ => 400
  | .unauthorized _ => 401
  | .forbidden _ => 403
  | .conflictErr _ => 409
  | .internal _ => 500

/-- The HTTP status of a controller outcome: thrown errors go through the
errorHandler, success responses are 200. -/
def responseStatus {α : Type} : Except ApiErr α → Nat
  | .error e => e.statusCode
  | .ok _ => 200

/-- The body of the status poll response. -/
inductive PollResult
  | already (payment : Payment)
  | checked (status : PayStatus) (message : String)
deriving DecidableEq, Repr

/-- The payment.update of the poll success branch (payment.controller.js
lines 138-144): status, receipt, transaction time, result code/description;
amount and phone are not written. -/
def applySuccessPoll (payment : Payment) (qd : QueryData) : Payment :=
  { payment with
    status := PayStatus.completed
    mpesa_receipt := qd.mpesaReceiptNumber
    transaction_time := qd.transactionDate.map TxTime.raw
    result_code := some (RCode.num qd.resultCode)
    result_desc := some qd.resultDesc }

/-- The payment.update of the poll failure branch (lines 162-166). -/
def applyFailurePoll (payment : Payment) (qd : QueryData) : Payment :=
  { payment with
    status := PayStatus.failed
    result_code := some (RCode.num qd.resultCode)
    result_desc := some qd.resultDesc }

/-- checkPaymentStatus from payment.controller.js (lines 95-180).  The
gateway query is an input: none models a Gateway Client failure
({success:false}), some qd a provider answer.  A null included invoice makes
the JS throw a TypeError after the payment update has been persisted; that is
the internal-error case. -/
def checkPaymentStatus (db : DB) (checkoutRequestId : String)
    (gw : Option QueryData) : DB × Except ApiErr PollResult :=
  match findPaymentByCheckout db checkoutRequestId with
  | none => (db, Except.error (ApiErr.notFound "Payment not found"))
  | some payment =>
    if payment.status = PayStatus.completed then
      (db, Except.ok (PollResult.already payment))
    else
      match gw with
      | none => (db, Except.error (ApiErr.badRequest "Failed to check payment status"))
      | some qd =>
        if qd.resultCode = 0 then
          let db1 := updatePayment db (applySuccessPoll payment qd)
          match findInvoiceById db1 payment.invoice_id with
          | none => (db1, Except.error (ApiErr.internal "Cannot read properties of null"))
          | some invoice =>
            (settleInvoiceIfPaid db1 invoice,
             Except.ok (PollResult.checked PayStatus.completed
               "Payment completed successfully"))
        else if qd.resultCode ≠ 1032 then
          (updatePayment db (applyFailurePoll payment qd),
           Except.ok (PollResult.checked PayStatus.failed "Payment failed"))
        else
          (db, Except.ok (PollResult.checked payment.status
            "Payment status checked successfully"))

/-- JS String.prototype.startsWith, as a kernel-reducible operation on the
underlying character list. -/
def jsStartsWith (s pre : String) : Bool :=
  pre.data.isPrefixOf s.data

/-- JS String.prototype.substring(n), dropping the first n characters. -/
def jsDrop (s : String) (n : Nat) : String :=
  String.mk (s.data.drop n)

/-- JS String.prototype.trim: strip whitespace from both ends. -/
def jsTrim (s : String) : String :=
  String.mk (((s.data.dropWhile Char.isWhitespace).reverse.dropWhile
    Char.isWhitespace).reverse)

/-- The phone formatting in initiatePayment (payment.controller.js lines
30-36): a leading 0 is replaced with 254; anything not starting with 254
(including a +254 number) gets 254 prefixed; a leading + is never stripped. -/
def formatPhoneController (phoneNumber : String) : String :=
  let p := jsTrim phoneNumber
  if jsStartsWith p "0" then "254" ++ jsDrop p 1
  else if ¬ jsStartsWith p "254" then "254" ++ p
  else p

/-- The phone formatting inside initiateSTKPush (mpesa.service.js lines
202-207): leading 0 replaced with 254, a leading + stripped, anything else
passed through. -/
def formatPhoneService (phoneNumber : String) : String :=
  if jsStartsWith phoneNumber "0" then "254" ++ jsDrop phoneNumber 1
  else if jsStartsWith phoneNumber "+" then jsDrop phoneNumber 1
  else phoneNumber

/-- The phone that actually reaches the provider request: the controller
formats first, then initiateSTKPush formats its argument again. -/
def phoneSentToProvider (phoneNumber : String) : String :=
  formatPhoneService (formatPhoneController phoneNumber)

/-- The outcome of the mpesaService.initiateSTKPush call, as seen by the
controller: a success envelope with the provider references, or a typed
failure carrying the optional provider errorCode and errorMessage. -/
inductive GatewayResult
  | ok (checkoutRequestID merchantRequestID : String)
  | failure (errorCode errorMessage : Option String)
deriving DecidableEq, Repr

/-- Payment.create of initiatePayment (lines 39-45). -/
def newPayment (newId : Nat) (amount : Int) (phone : String)
    (invoiceId userId : Nat) : Payment :=
  { id := newId
    amount := amount
    mpesa_receipt := none
    phone_number := phone
    transaction_time := none
    status := PayStatus.pending
    checkout_request_id := none
    merchant_request_id := none
    result_code := none
    result_desc := none
    callback_metadata := none
    invoice_id := invoiceId
    user_id := userId }

/-- initiatePayment from payment.controller.js (lines 11-87).  newId stands
for the generated UUID of the created row; the gateway response is an
input. -/
def initiatePayment (db : DB) (invoiceId userId : Nat) (phoneNumber : String)
    (gw : GatewayResult) (newId : Nat) : DB × Except ApiErr Payment :=
  match findInvoiceOwned db invoiceId userId with
  | none => (db, Except.error (ApiErr.notFound "Invoice not found"))
  | some invoice =>
    if invoice.status = InvStatus.paid then
      (db, Except.error (ApiErr.badRequest "This invoice has already been paid"))
    else
      let formattedPhone := formatPhoneController phoneNumber
      let payment := newPayment newId invoice.amount formattedPhone invoice.id userId
      let db1 := { db with payments := db.payments ++ [payment] }
      match gw with
      | .failure ec em =>
        let payment' := { payment with
          status := PayStatus.failed
          result_code := some (RCode.txt (ec.getD "UNKNOWN_ERROR"))
          result_desc := some (em.getD "Failed to initiate payment") }
        (updatePayment db1 payment',
         Except.error (ApiErr.badRequest "Failed to initiate payment"))
      | .ok cid mid =>
        let payment' := { payment with
          checkout_request_id := some cid
          merchant_request_id := some mid }
        (updatePayment db1 payment', Except.ok payment')

/-- Observation helper: the status column of the first payment row with the
given primary key. -/
def paymentStatusById (db : DB) (pid : Nat) : Option PayStatus :=
  (db.payments.find? (fun q => q.id = pid)).map Payment.status

/-- Observation helper: the amount column of the first payment row with the
given primary key. -/
def paymentAmountById (db : DB) (pid : Nat) : Option Int :=
  (db.payments.find? (fun q => q.id = pid)).map Payment.amount

/-- Observation helper: the status column of the first invoice row with the
given primary key. -/
def invoiceStatusById (db : DB) (invId : Nat) : Option InvStatus :=
  (db.invoices.find? (fun v => v.id = invId)).map Invoice.status

/-! ## Helper lemmas about the list-level database operations -/

/-- After an update keyed on the primary key of a row that exists in the
list, looking the key up finds exactly the updated row. -/
theorem find?_map_update_id (l : List Payment) (p' : Payment)
    (h : ∃ q ∈ l, q.id = p'.id) :
    (l.map (fun q => if q.id = p'.id then p' else q)).find?
      (fun q => q.id = p'.id) = some p' := by
  induction l with
  | nil => simp at h
  | cons a t ih =>
    by_cases ha : a.id = p'.id
    · simp [List.find?_cons, ha]
    · have h' : ∃ q ∈ t, q.id = p'.id := by
        rcases h with ⟨q, hq, hid⟩
        rcases List.mem_cons.mp hq with rfl | hq'
        · exact absurd hid ha
        · exact ⟨q, hq', hid⟩
      simpa [List.find?_cons, ha] using ih h'

/-- Updating the row found by checkout reference keeps it the first match for
that checkout reference, provided the update preserves key and reference. -/
theorem find?_cid_map_update (l : List Payment) (c : String) (p p' : Payment)
    (hf : l.find? (fun q => q.checkout_request_id = some c) = some p)
    (hid : p'.id = p.id) (hcid : p'.checkout_request_id = some c) :
    (l.map (fun q => if q.id = p'.id then p' else q)).find?
      (fun q => q.checkout_request_id = some c) = some p' := by
  induction l with
  | nil => simp [List.find?] at hf
  | cons a t ih =>
    by_cases ha : a.checkout_request_id = some c
    · have hap : a = p := by simpa [List.find?_cons, ha] using hf
      subst hap
      simp [List.find?_cons, hid, hcid]
    · have hf' : t.find? (fun q => q.checkout_request_id = some c) = some p := by
        simpa [List.find?_cons, ha] using hf
      by_cases hb : a.id = p'.id
      · simp [List.find?_cons, hb, hcid]
      · simpa [List.find?_cons, ha, hb] using ih hf'

/-- Setting the status of the invoice found by id makes the updated record
the first match for that id. -/
theorem find?_inv_map_set (l : List Invoice) (i : Nat) (s : InvStatus)
    (inv : Invoice) (hf : l.find? (fun v => v.id = i) = some inv) :
    (l.map (fun v => if v.id = i then { v with status := s } else v)).find?
      (fun v => v.id = i) = some { inv with status := s } := by
  induction l with
  | nil => simp [List.find?] at hf
  | cons a t ih =>
    by_cases ha : a.id = i
    · have hap : a = inv := by simpa [List.find?_cons, ha] using hf
      subst hap
      simp [List.find?_cons, ha]
    · have hf' : t.find? (fun v => v.id = i) = some inv := by
        simpa [List.find?_cons, ha] using hf
      simpa [List.find?_cons, ha] using ih hf'

/-- Re-persisting the same payment row twice equals persisting it once. -/
theorem updatePayment_idem (db : DB) (p : Payment) :
    updatePayment (updatePayment db p) p = updatePayment db p := by
  simp only [updatePayment, List.map_map]
  congr 1
  apply List.map_congr_left
  intro q _
  by_cases h : q.id = p.id <;> simp [h]

/-- Setting the same invoice status twice equals setting it once. -/
theorem setInvoiceStatus_idem (db : DB) (i : Nat) (s : InvStatus) :
    setInvoiceStatus (setInvoiceStatus db i s) i s = setInvoiceStatus db i s := by
  simp only [setInvoiceStatus, List.map_map]
  congr 1
  apply List.map_congr_left
  intro v _
  by_cases h : v.id = i <;> simp [h]

/-- The invoice recomputation never touches the payments table. -/
theorem settle_payments (db : DB) (inv : Invoice) :
    (settleInvoiceIfPaid db inv).payments = db.payments := by
  unfold settleInvoiceIfPaid
  split <;> rfl

/-- The invoice recomputation does not change any payment observation. -/
theorem paymentStatusById_settle (db : DB) (inv : Invoice) (pid : Nat) :
    paymentStatusById (settleInvoiceIfPaid db inv) pid = paymentStatusById db pid := by
  unfold settleInvoiceIfPaid
  split <;> rfl

/-- Reading the status of an updated payment row. -/
theorem paymentStatusById_update (db : DB) (p' : Payment) (pid : Nat)
    (hpid : p'.id = pid) (h : ∃ q ∈ db.payments, q.id = p'.id) :
    paymentStatusById (updatePayment db p') pid = some p'.status := by
  subst hpid
  unfold paymentStatusById updatePayment
  rw [find?_map_update_id db.payments p' h]
  rfl

/-- Reading the status of an invoice whose status was just set. -/
theorem invoiceStatusById_set (db : DB) (i : Nat) (s : InvStatus)
    (inv : Invoice) (hf : findInvoiceById db i = some inv) :
    invoiceStatusById (setInvoiceStatus db i s) i = some s := by
  unfold invoiceStatusById setInvoiceStatus
  rw [find?_inv_map_set db.invoices i s inv hf]
  rfl

/-! ## Shared sample records for concrete executions -/

/-- A freshly initiated pending attempt with checkout reference ws_1. -/
def samplePending : Payment :=
  { id := 1, amount := 500, mpesa_receipt := none,
    phone_number := "254712345678", transaction_time := none,
    status := PayStatus.pending, checkout_request_id := some "ws_1",
    merchant_request_id := some "m_1", result_code := none,
    result_desc := none, callback_metadata := none,
    invoice_id := 1, user_id := 7 }

/-- The same attempt after a successful reconciliation. -/
def sampleCompleted : Payment :=
  { samplePending with
    status := PayStatus.completed
    mpesa_receipt := some "QWE123"
    result_code := some (RCode.num 0)
    result_desc := some "The service request is processed successfully." }

/-- An invoice of 500 that has been sent and not paid. -/
def sampleInvoiceSent : Invoice :=
  { id := 1, invoice_number := "INV-1", amount := 500,
    status := InvStatus.sent, user_id := 7 }

/-- The same invoice marked paid. -/
def sampleInvoicePaid : Invoice :=
  { sampleInvoiceSent with status := InvStatus.paid }

/-- Database with one pending attempt against one sent invoice. -/
def dbPending : DB :=
  { payments := [samplePending], invoices := [sampleInvoiceSent] }

/-- Database with one completed attempt against one paid invoice. -/
def dbCompleted : DB :=
  { payments := [sampleCompleted], invoices := [sampleInvoicePaid] }

/-- The empty database. -/
def dbEmpty : DB := { payments := [], invoices := [] }

/-- A callback envelope for checkout reference ws_1 with the given result
code and metadata. -/
def cbWith (n : Nat) (md : Option (List MetaItem)) : CallbackData :=
  { stkCallback :=
    { checkoutRequestID := "ws_1"
      resultCode := n
      resultDesc := "desc"
      callbackMetadata := md } }

/-- A status query response with the given result code. -/
def qdWith (n : Nat) : QueryData :=
  { resultCode := n, resultDesc := "desc",
    mpesaReceiptNumber := none, transactionDate := none }

/-! ## Claim C1 -/

/-- Claim C1 counterexample: handleCallback has no terminal-state guard, so a
second callback carrying a failure code moves an already completed attempt to
failed — the stored state of a terminal attempt is not left unchanged. -/
theorem C1_counterexample :
    paymentStatusById dbCompleted 1 = some PayStatus.completed ∧
    paymentStatusById (handleCallback dbCompleted (cbWith 1 none)).1 1
      = some PayStatus.failed := by decide

/-- Claim C1 as amended: only the polling path implements the duplicate
guard, and only for the completed state: when the attempt found by checkout
reference is already completed, checkPaymentStatus returns the stored attempt
and leaves the database unchanged, without contacting the gateway.  The
callback path applies any further result unconditionally (see the
counterexample), and a failed attempt is re-processed by both paths. -/
theorem C1_completed_poll_noop (db : DB) (cid : String) (gw : Option QueryData)
    (p : Payment) (hf : findPaymentByCheckout db cid = some p)
    (hc : p.status = PayStatus.completed) :
    checkPaymentStatus db cid gw = (db, Except.ok (PollResult.already p)) := by
  simp [checkPaymentStatus, hf, hc]

/-- Witness for C1_completed_poll_noop at a concrete database. -/
theorem C1_completed_poll_noop_witness :
    checkPaymentStatus dbCompleted "ws_1" none
      = (dbCompleted, Except.ok (PollResult.already sampleCompleted)) :=
  C1_completed_poll_noop dbCompleted "ws_1" none sampleCompleted rfl rfl

/-! ## Claim C3 -/

/-- Claim C3 counterexample: a callback with the transient code 1032 on a
pending attempt does not leave it pending — handleCallback treats every
nonzero code as failure and marks the attempt failed. -/
theorem C3_counterexample :
    paymentStatusById dbPending 1 = some PayStatus.pending ∧
    paymentStatusById (handleCallback dbPending (cbWith 1032 none)).1 1
      = some PayStatus.failed := by decide

/-- Claim C3 as amended: result code 1032 is a non-terminal no-op only on the
polling path, where a pending attempt stays pending and the database is
unchanged; on the callback path 1032 falls into the generic failure branch
and the attempt becomes failed. -/
theorem C3_transient_code_paths (db : DB) (cid : String) (desc : String)
    (md : Option (List MetaItem)) (rcpt : Option String) (txd : Option JVal)
    (p : Payment) (hf : findPaymentByCheckout db cid = some p)
    (hp : p.status = PayStatus.pending) :
    checkPaymentStatus db cid
        (some { resultCode := 1032, resultDesc := desc,
                mpesaReceiptNumber := rcpt, transactionDate := txd })
      = (db, Except.ok (PollResult.checked PayStatus.pending
          "Payment status checked successfully"))
    ∧ paymentStatusById
        (handleCallback db
          { stkCallback :=
            { checkoutRequestID := cid
              resultCode := 1032
              resultDesc := desc
              callbackMetadata := md } }).1 p.id
      = some PayStatus.failed := by
  have hp' : p ∈ db.payments := List.mem_of_find?_eq_some hf
  constructor
  · simp [checkPaymentStatus, hf, hp]
  · have hh : paymentStatusById
        (updatePayment db (applyFailureCb p
          { stkCallback :=
            { checkoutRequestID := cid
              resultCode := 1032
              resultDesc := desc
              callbackMetadata := md } })) p.id = some PayStatus.failed := by
      apply paymentStatusById_update
      · rfl
      · exact ⟨p, hp', rfl⟩
    simpa [handleCallback, hf] using hh

/-- Witness for C3_transient_code_paths at a concrete database. -/
theorem C3_transient_code_paths_witness :
    checkPaymentStatus dbPending "ws_1"
        (some { resultCode := 1032, resultDesc := "desc",
                mpesaReceiptNumber := none, transactionDate := none })
      = (dbPending, Except.ok (PollResult.checked PayStatus.pending
          "Payment status checked successfully"))
    ∧ paymentStatusById
        (handleCallback dbPending
          { stkCallback :=
            { checkoutRequestID := "ws_1"
              resultCode := 1032
              resultDesc := "desc"
              callbackMetadata := none } }).1 samplePending.id
      = some PayStatus.failed :=
  C3_transient_code_paths dbPending "ws_1" "desc" none none none
    samplePending rfl rfl

/-! ## Claim C6 -/

/-- Claim C6 counterexample: the controller formatting that runs on payment
initiation does not strip a leading plus sign; it prefixes 254 instead, so a
+254 number is mangled rather than normalized, and the provider-bound value
is not digits only. -/
theorem C6_counterexample :
    formatPhoneController "+254712345678" = "254+254712345678" ∧
    phoneSentToProvider "+254712345678" = "254+254712345678" ∧
    ("254+254712345678" ≠ "254712345678") := by decide

/-- Claim C6 as amended: the controller normalization replaces a leading 0
with 254 and passes 254-prefixed numbers through, but prefixes 254 to a
plus-prefixed number without stripping the plus; the service-level
normalization inside initiateSTKPush does strip a leading plus, but it runs
after the controller has already prefixed 254, so an initiation with
+254712345678 sends and stores 254+254712345678. -/
theorem C6_phone_normalization :
    formatPhoneController "0712345678" = "254712345678" ∧
    formatPhoneController "254712345678" = "254712345678" ∧
    formatPhoneController "+254712345678" = "254+254712345678" ∧
    formatPhoneService "+254712345678" = "254712345678" ∧
    phoneSentToProvider "0712345678" = "254712345678" ∧
    phoneSentToProvider "254712345678" = "254712345678" ∧
    phoneSentToProvider "+254712345678" = "254+254712345678" := by decide

deriving instance DecidableEq for Except

/-! ## Claim C7 -/

/-- Claim C7 counterexample: initiating a payment against an already paid
invoice is rejected through BadRequestError, which the error handler maps to
HTTP 400, not 409. -/
theorem C7_counterexample :
    (initiatePayment { payments := [], invoices := [sampleInvoicePaid] } 1 7
        "0712345678" (GatewayResult.ok "ws_1" "m_1") 2).2
      = Except.error (ApiErr.badRequest "This invoice has already been paid") ∧
    responseStatus ((initiatePayment { payments := [], invoices := [sampleInvoicePaid] }
        1 7 "0712345678" (GatewayResult.ok "ws_1" "m_1") 2).2) = 400 ∧
    (400 ≠ 409) := by decide

/-- Claim C7 as amended: a missing invoice yields NotFoundError (HTTP 404)
and a provider rejection yields BadRequestError (HTTP 400) as claimed, but an
already paid invoice is rejected with BadRequestError (HTTP 400), not with a
409 Conflict — the ConflictError class of the error handler is unused here. -/
theorem C7_initiate_errors (db : DB) (invoiceId userId : Nat) (phone : String)
    (gw : GatewayResult) (newId : Nat) :
    (findInvoiceOwned db invoiceId userId = none →
      initiatePayment db invoiceId userId phone gw newId
        = (db, Except.error (ApiErr.notFound "Invoice not found"))
      ∧ responseStatus ((initiatePayment db invoiceId userId phone gw newId).2) = 404)
    ∧ (∀ inv, findInvoiceOwned db invoiceId userId = some inv →
        inv.status = InvStatus.paid →
        initiatePayment db invoiceId userId phone gw newId
          = (db, Except.error (ApiErr.badRequest "This invoice has already been paid"))
        ∧ responseStatus ((initiatePayment db invoiceId userId phone gw newId).2) = 400)
    ∧ (∀ inv ec em, findInvoiceOwned db invoiceId userId = some inv →
        inv.status ≠ InvStatus.paid → gw = GatewayResult.failure ec em →
        (initiatePayment db invoiceId userId phone gw newId).2
          = Except.error (ApiErr.badRequest "Failed to initiate payment")
        ∧ responseStatus ((initiatePayment db invoiceId userId phone gw newId).2) = 400) := by
  refine ⟨fun hn => ?_, fun inv hs hp => ?_, fun inv ec em hs hnp hgw => ?_⟩
  · simp [initiatePayment, hn, responseStatus, ApiErr.statusCode]
  · simp [initiatePayment, hs, hp, responseStatus, ApiErr.statusCode]
  · subst hgw
    simp [initiatePayment, hs, hnp, responseStatus, ApiErr.statusCode]

/-- Witness for C7_initiate_errors: each branch exercised at a concrete
database. -/
theorem C7_initiate_errors_witness :
    (initiatePayment dbEmpty 1 7 "0712345678" (GatewayResult.ok "ws_1" "m_1") 2
        = (dbEmpty, Except.error (ApiErr.notFound "Invoice not found"))
      ∧ responseStatus ((initiatePayment dbEmpty 1 7 "0712345678"
          (GatewayResult.ok "ws_1" "m_1") 2).2) = 404)
    ∧ (initiatePayment { payments := [], invoices := [sampleInvoicePaid] } 1 7
          "0712345678" (GatewayResult.ok "ws_1" "m_1") 2
        = ({ payments := [], invoices := [sampleInvoicePaid] },
           Except.error (ApiErr.badRequest "This invoice has already been paid"))
      ∧ responseStatus ((initiatePayment { payments := [], invoices := [sampleInvoicePaid] }
          1 7 "0712345678" (GatewayResult.ok "ws_1" "m_1") 2).2) = 400)
    ∧ ((initiatePayment dbPending 1 7 "0712345678"
          (GatewayResult.failure none none) 2).2
        = Except.error (ApiErr.badRequest "Failed to initiate payment")
      ∧ responseStatus ((initiatePayment dbPending 1 7 "0712345678"
          (GatewayResult.failure none none) 2).2) = 400) :=
  ⟨(C7_initiate_errors dbEmpty 1 7 "0712345678"
      (GatewayResult.ok "ws_1" "m_1") 2).1 rfl,
   (C7_initiate_errors { payments := [], invoices := [sampleInvoicePaid] } 1 7
      "0712345678" (GatewayResult.ok "ws_1" "m_1") 2).2.1 sampleInvoicePaid rfl rfl,
   (C7_initiate_errors dbPending 1 7 "0712345678"
      (GatewayResult.failure none none) 2).2.2 sampleInvoiceSent none none rfl
     (by decide) rfl⟩

/-! ## Claim C8 -/

/-- Claim C8 counterexample: when the gateway call fails during initiation,
the freshly created attempt does not stay pending — it is updated to failed
before the BadRequestError is thrown. -/
theorem C8_counterexample :
    paymentStatusById ((initiatePayment dbPending 1 7 "0712345678"
        (GatewayResult.failure none none) 2).1) 2 = some PayStatus.failed ∧
    (some PayStatus.failed ≠ some PayStatus.pending) := by decide

/-- Claim C8 as amended: a Gateway Client failure during initiation marks the
created attempt failed (storing the provider error code and message, with
defaults UNKNOWN_ERROR and a generic description) and surfaces as
BadRequestError; the attempt does not remain pending and is not left eligible
for a later poll in the pending state. -/
theorem C8_gateway_failure_marks_failed (db : DB) (invoiceId userId : Nat)
    (phone : String) (ec em : Option String) (newId : Nat) (inv : Invoice)
    (hf : findInvoiceOwned db invoiceId userId = some inv)
    (hnp : inv.status ≠ InvStatus.paid) :
    paymentStatusById ((initiatePayment db invoiceId userId phone
        (GatewayResult.failure ec em) newId).1) newId = some PayStatus.failed
    ∧ (initiatePayment db invoiceId userId phone
        (GatewayResult.failure ec em) newId).2
      = Except.error (ApiErr.badRequest "Failed to initiate payment") := by
  constructor
  · have hh : paymentStatusById
        (updatePayment
          { db with payments := db.payments ++
              [newPayment newId inv.amount (formatPhoneController phone) inv.id userId] }
          { newPayment newId inv.amount (formatPhoneController phone) inv.id userId with
            status := PayStatus.failed
            result_code := some (RCode.txt (ec.getD "UNKNOWN_ERROR"))
            result_desc := some (em.getD "Failed to initiate payment") }) newId
        = some PayStatus.failed := by
      apply paymentStatusById_update
      · rfl
      · exact ⟨newPayment newId inv.amount (formatPhoneController phone) inv.id userId,
          by simp, rfl⟩
    simpa [initiatePayment, hf, hnp] using hh
  · simp [initiatePayment, hf, hnp]

/-- Witness for C8_gateway_failure_marks_failed at a concrete database. -/
theorem C8_gateway_failure_marks_failed_witness :
    paymentStatusById ((initiatePayment dbPending 1 7 "0712345678"
        (GatewayResult.failure none none) 2).1) 2 = some PayStatus.failed
    ∧ (initiatePayment dbPending 1 7 "0712345678"
        (GatewayResult.failure none none) 2).2
      = Except.error (ApiErr.badRequest "Failed to initiate payment") :=
  C8_gateway_failure_marks_failed dbPending 1 7 "0712345678" none none 2
    sampleInvoiceSent rfl (by decide)

/-! ## Claim C10 -/

/-- Claim C10: the callback endpoint acknowledges every callback with HTTP
200 and ResultCode 0, even when handleCallback reports an internal failure;
in particular, when no attempt matches the CheckoutRequestID, handleCallback
returns a failure value, the endpoint ignores it, and the database is
unchanged.  The ResultCode 1 branch of the endpoint is reachable only when
handleCallback throws, which its internal try/catch prevents. -/
theorem C10_callback_always_acknowledged (db : DB) (cbData : CallbackData) :
    (mpesaCallback db cbData).2
      = { resultCode := 0, resultDesc := "Callback processed successfully",
          httpStatus := 200 }
    ∧ (findPaymentByCheckout db cbData.stkCallback.checkoutRequestID = none →
        (handleCallback db cbData).2 = HandleResult.failure "Payment not found"
        ∧ (mpesaCallback db cbData).1 = db) := by
  refine ⟨rfl, fun hf => ?_⟩
  constructor
  · simp [handleCallback, hf]
  · simp [mpesaCallback, handleCallback, hf]

/-- Witness for C10_callback_always_acknowledged: an unmatched callback on
the empty database. -/
theorem C10_callback_always_acknowledged_witness :
    (mpesaCallback dbEmpty (cbWith 0 none)).2
      = { resultCode := 0, resultDesc := "Callback processed successfully",
          httpStatus := 200 }
    ∧ ((handleCallback dbEmpty (cbWith 0 none)).2
        = HandleResult.failure "Payment not found"
      ∧ (mpesaCallback dbEmpty (cbWith 0 none)).1 = dbEmpty) :=
  ⟨(C10_callback_always_acknowledged dbEmpty (cbWith 0 none)).1,
   (C10_callback_always_acknowledged dbEmpty (cbWith 0 none)).2 rfl⟩

/-! ## Claim C4 -/

/-- Claim C4 counterexample: the success branch of handleCallback overwrites
the stored amount with the Amount metadata value, defaulting to 0 when the
field is absent — the amount set at creation does not survive reconciliation
through the callback path. -/
theorem C4_counterexample :
    paymentAmountById dbPending 1 = some 500 ∧
    paymentAmountById (handleCallback dbPending (cbWith 0 (some []))).1 1
      = some 0 ∧
    ((0 : Int) ≠ 500) := by decide

/-- Claim C4 as amended: the polling path respects the frame — whatever
branch it takes (duplicate return, gateway failure, success, failure or the
transient 1032 code), the amount column of every payment row is unchanged,
assuming primary keys are unique; the callback path, by contrast, rewrites
amount and phone_number from the callback metadata on success (see the
counterexample). -/
theorem C4_poll_preserves_amounts (db : DB) (cid : String)
    (gw : Option QueryData)
    (hnd : (db.payments.map Payment.id).Nodup) :
    ((checkPaymentStatus db cid gw).1).payments.map Payment.amount
      = db.payments.map Payment.amount := by
  have key : ∀ (p p' : Payment), findPaymentByCheckout db cid = some p →
      p'.id = p.id → p'.amount = p.amount →
      (updatePayment db p').payments.map Payment.amount
        = db.payments.map Payment.amount := by
    intro p p' hf hid ham
    have hp : p ∈ db.payments := List.mem_of_find?_eq_some hf
    unfold updatePayment
    rw [List.map_map]
    apply List.map_congr_left
    intro q hq
    by_cases h : q.id = p'.id
    · have hqp : q = p := List.inj_on_of_nodup_map hnd hq hp (by rw [h, hid])
      subst hqp
      simp [h, ham]
    · simp [h]
  unfold checkPaymentStatus
  cases hf : findPaymentByCheckout db cid with
  | none => rfl
  | some p =>
    by_cases hc : p.status = PayStatus.completed
    · simp [hc]
    · simp only [hc, if_false, if_neg]
      cases gw with
      | none => rfl
      | some qd =>
        by_cases h0 : qd.resultCode = 0
        · simp only [h0, if_pos, if_true]
          have hupd := key p (applySuccessPoll p qd) hf rfl rfl
          cases hi : findInvoiceById (updatePayment db (applySuccessPoll p qd))
              p.invoice_id with
          | none => simpa using hupd
          | some invoice =>
            simpa [settle_payments] using hupd
        · by_cases h32 : qd.resultCode = 1032
          · simp [h0, h32]
          · simp only [h0, h32, if_neg, if_false, ne_eq, not_false_iff, if_pos]
            exact key p (applyFailurePoll p qd) hf rfl rfl

/-- Witness for C4_poll_preserves_amounts: a successful poll on a concrete
database keeps the amounts column. -/
theorem C4_poll_preserves_amounts_witness :
    ((checkPaymentStatus dbPending "ws_1" (some (qdWith 0))).1).payments.map
        Payment.amount
      = dbPending.payments.map Payment.amount :=
  C4_poll_preserves_amounts dbPending "ws_1" (some (qdWith 0)) (by decide)

/-! ## Claim C2 -/

/-- Claim C2 counterexample: the same provider result (code 1032) fed to the
callback path marks the pending attempt failed, while fed to the polling path
it leaves the attempt pending — the two ingress paths do not implement one
and the same transition function. -/
theorem C2_counterexample :
    paymentStatusById (handleCallback dbPending (cbWith 1032 none)).1 1
      = some PayStatus.failed ∧
    paymentStatusById (checkPaymentStatus dbPending "ws_1"
        (some (qdWith 1032))).1 1 = some PayStatus.pending ∧
    (PayStatus.failed ≠ PayStatus.pending) := by decide

/-- Claim C2 as amended: for the same checkout reference and the same result
code, the callback path and the polling path converge on the same final
attempt STATUS whenever the code is not 1032 (completed on 0, failed
otherwise, for any attempt that is not already completed); they diverge on
1032 (see the counterexample), and on success the stored rows differ beyond
the status because only the callback path rewrites amount, phone number and
the raw payload. -/
theorem C2_status_convergence (db : DB) (cid : String) (n : Nat)
    (desc : String) (md : Option (List MetaItem)) (rcpt : Option String)
    (txd : Option JVal) (p : Payment)
    (hf : findPaymentByCheckout db cid = some p)
    (hnc : p.status ≠ PayStatus.completed) (h32 : n ≠ 1032) :
    paymentStatusById
        (handleCallback db
          { stkCallback :=
            { checkoutRequestID := cid
              resultCode := n
              resultDesc := desc
              callbackMetadata := md } }).1 p.id
      = paymentStatusById
        (checkPaymentStatus db cid
          (some { resultCode := n, resultDesc := desc,
                  mpesaReceiptNumber := rcpt, transactionDate := txd })).1 p.id
    ∧ paymentStatusById
        (handleCallback db
          { stkCallback :=
            { checkoutRequestID := cid
              resultCode := n
              resultDesc := desc
              callbackMetadata := md } }).1 p.id
      = some (if n = 0 then PayStatus.completed else PayStatus.failed) := by
  have hp : p ∈ db.payments := List.mem_of_find?_eq_some hf
  have hex : ∀ p' : Payment, p'.id = p.id → ∃ q ∈ db.payments, q.id = p'.id :=
    fun p' hid => ⟨p, hp, hid.symm⟩
  by_cases h0 : n = 0
  · subst h0
    have hcb : paymentStatusById
        (handleCallback db
          { stkCallback :=
            { checkoutRequestID := cid
              resultCode := 0
              resultDesc := desc
              callbackMetadata := md } }).1 p.id = some PayStatus.completed := by
      have hupd := paymentStatusById_update db
        (applySuccess p
          { stkCallback :=
            { checkoutRequestID := cid
              resultCode := 0
              resultDesc := desc
              callbackMetadata := md } }) p.id rfl (hex _ rfl)
      unfold handleCallback
      rw [hf]
      simp only
      cases hi : findInvoiceById
          (updatePayment db (applySuccess p
            { stkCallback :=
              { checkoutRequestID := cid
                resultCode := 0
                resultDesc := desc
                callbackMetadata := md } })) p.invoice_id with
      | none => simpa using hupd
      | some invoice => simpa [paymentStatusById_settle] using hupd
    have hpoll : paymentStatusById
        (checkPaymentStatus db cid
          (some { resultCode := 0, resultDesc := desc,
                  mpesaReceiptNumber := rcpt, transactionDate := txd })).1 p.id
        = some PayStatus.completed := by
      have hupd := paymentStatusById_update db
        (applySuccessPoll p
          { resultCode := 0, resultDesc := desc,
            mpesaReceiptNumber := rcpt, transactionDate := txd }) p.id rfl
        (hex _ rfl)
      unfold checkPaymentStatus
      rw [hf]
      simp only [hnc, if_neg]
      cases hi : findInvoiceById
          (updatePayment db (applySuccessPoll p
            { resultCode := 0, resultDesc := desc,
              mpesaReceiptNumber := rcpt, transactionDate := txd }))
          p.invoice_id with
      | none => simpa using hupd
      | some invoice => simpa [paymentStatusById_settle] using hupd
    rw [hcb, hpoll]
    simp
  · have hcb : paymentStatusById
        (handleCallback db
          { stkCallback :=
            { checkoutRequestID := cid
              resultCode := n
              resultDesc := desc
              callbackMetadata := md } }).1 p.id = some PayStatus.failed := by
      have hupd := paymentStatusById_update db
        (applyFailureCb p
          { stkCallback :=
            { checkoutRequestID := cid
              resultCode := n
              resultDesc := desc
              callbackMetadata := md } }) p.id rfl (hex _ rfl)
      simpa [handleCallback, hf, h0] using hupd
    have hpoll : paymentStatusById
        (checkPaymentStatus db cid
          (some { resultCode := n, resultDesc := desc,
                  mpesaReceiptNumber := rcpt, transactionDate := txd })).1 p.id
        = some PayStatus.failed := by
      have hupd := paymentStatusById_update db
        (applyFailurePoll p
          { resultCode := n, resultDesc := desc,
            mpesaReceiptNumber := rcpt, transactionDate := txd }) p.id rfl
        (hex _ rfl)
      simpa [checkPaymentStatus, hf, hnc, h0, h32] using hupd
    rw [hcb, hpoll]
    simp [h0]

/-- Witness for C2_status_convergence: a generic failure code 1 on a concrete
pending attempt. -/
theorem C2_status_convergence_witness :
    paymentStatusById
        (handleCallback dbPending
          { stkCallback :=
            { checkoutRequestID := "ws_1"
              resultCode := 1
              resultDesc := "desc"
              callbackMetadata := none } }).1 samplePending.id
      = paymentStatusById
        (checkPaymentStatus dbPending "ws_1"
          (some { resultCode := 1, resultDesc := "desc",
                  mpesaReceiptNumber := none, transactionDate := none })).1
        samplePending.id
    ∧ paymentStatusById
        (handleCallback dbPending
          { stkCallback :=
            { checkoutRequestID := "ws_1"
              resultCode := 1
              resultDesc := "desc"
              callbackMetadata := none } }).1 samplePending.id
      = some (if 1 = 0 then PayStatus.completed else PayStatus.failed) :=
  C2_status_convergence dbPending "ws_1" 1 "desc" none none none
    samplePending rfl (by decide) (by decide)

/-! ## Claim C5 -/

/-- The invoice-status recomputation reads only the payments table, which
setInvoiceStatus leaves untouched. -/
theorem sumCompleted_set (db : DB) (i : Nat) (s : InvStatus) (j : Nat) :
    sumCompleted (setInvoiceStatus db i s) j = sumCompleted db j := rfl

/-- Claim C5 counterexample: after a successful callback (amount 500) the
invoice becomes paid, but a second success callback without an Amount
metadata field rewrites the completed amount to 0; the invoice stays paid
while the sum of completed amounts is 0 < 500, so paid does not imply that
the completed sum covers the invoice amount on all reachable states. -/
theorem C5_counterexample :
    let db1 := (handleCallback dbPending
      (cbWith 0 (some [⟨"Amount", JVal.num 500⟩,
                       ⟨"MpesaReceiptNumber", JVal.str "QWE123"⟩]))).1
    let db2 := (handleCallback db1 (cbWith 0 (some []))).1
    invoiceStatusById db1 1 = some InvStatus.paid ∧
    invoiceStatusById db2 1 = some InvStatus.paid ∧
    sumCompleted db2 1 = 0 ∧
    ¬ ((0 : Int) ≥ 500) := by decide

/-- Claim C5 as amended: the recomputation step itself behaves as claimed —
run on the current payments table it reports the invoice paid exactly when
the completed sum reaches the invoice amount or the invoice was already
paid (it never un-pays), and re-running it with the same inputs changes
nothing.  The reachable-state implication of the claim fails, because the
callback path can afterwards rewrite a completed amount (see the
counterexample). -/
theorem C5_settle_recompute (db : DB) (inv : Invoice)
    (hf : findInvoiceById db inv.id = some inv) :
    ((invoiceStatusById (settleInvoiceIfPaid db inv) inv.id = some InvStatus.paid)
      ↔ (sumCompleted db inv.id ≥ inv.amount ∨ inv.status = InvStatus.paid))
    ∧ settleInvoiceIfPaid (settleInvoiceIfPaid db inv) inv
      = settleInvoiceIfPaid db inv := by
  constructor
  · by_cases hc : sumCompleted db inv.id ≥ inv.amount
    · have h1 : settleInvoiceIfPaid db inv
          = setInvoiceStatus db inv.id InvStatus.paid := by
        simp [settleInvoiceIfPaid, hc]
      rw [h1, invoiceStatusById_set db inv.id InvStatus.paid inv hf]
      simp [hc]
    · have h1 : settleInvoiceIfPaid db inv = db := by
        simp [settleInvoiceIfPaid, hc]
      rw [h1]
      unfold invoiceStatusById
      unfold findInvoiceById at hf
      rw [hf]
      simp [hc]
  · by_cases hc : sumCompleted db inv.id ≥ inv.amount
    · have h1 : settleInvoiceIfPaid db inv
          = setInvoiceStatus db inv.id InvStatus.paid := by
        simp [settleInvoiceIfPaid, hc]
      rw [h1]
      simp [settleInvoiceIfPaid, sumCompleted_set, hc, setInvoiceStatus_idem]
    · have h1 : settleInvoiceIfPaid db inv = db := by
        simp [settleInvoiceIfPaid, hc]
      rw [h1]
      exact h1

/-- Witness for C5_settle_recompute on a concrete paid invoice. -/
theorem C5_settle_recompute_witness :
    ((invoiceStatusById (settleInvoiceIfPaid dbCompleted sampleInvoicePaid)
        sampleInvoicePaid.id = some InvStatus.paid)
      ↔ (sumCompleted dbCompleted sampleInvoicePaid.id ≥ sampleInvoicePaid.amount
          ∨ sampleInvoicePaid.status = InvStatus.paid))
    ∧ settleInvoiceIfPaid (settleInvoiceIfPaid dbCompleted sampleInvoicePaid)
        sampleInvoicePaid
      = settleInvoiceIfPaid dbCompleted sampleInvoicePaid :=
  C5_settle_recompute dbCompleted sampleInvoicePaid rfl

/-! ## Claim C9 -/

/-- Re-applying the success update with the same callback payload writes the
same values: the update is idempotent on the row. -/
theorem applySuccess_idem (p : Payment) (cb : CallbackData) :
    applySuccess (applySuccess p cb) cb = applySuccess p cb := rfl

/-- List-level idempotence of the keyed row update. -/
theorem map_update_idem (l : List Payment) (p : Payment) :
    ((l.map (fun q => if q.id = p.id then p else q)).map
      (fun q => if q.id = p.id then p else q))
      = l.map (fun q => if q.id = p.id then p else q) := by
  rw [List.map_map]
  apply List.map_congr_left
  intro q _
  by_cases h : q.id = p.id <;> simp [h]

/-- Equation lemma: handleCallback on a matching attempt with a success code
updates the attempt and then recomputes the owning invoice. -/
theorem handleCallback_success_eq (db : DB) (cbData : CallbackData) (p : Payment)
    (hf : findPaymentByCheckout db cbData.stkCallback.checkoutRequestID = some p)
    (h0 : cbData.stkCallback.resultCode = 0) :
    handleCallback db cbData =
      match findInvoiceById (updatePayment db (applySuccess p cbData))
          p.invoice_id with
      | none => (updatePayment db (applySuccess p cbData),
                 HandleResult.failure "Cannot read properties of null")
      | some invoice =>
        (settleInvoiceIfPaid (updatePayment db (applySuccess p cbData)) invoice,
         HandleResult.ok) := by
  simp [handleCallback, hf, h0]

/-- Equation lemma for a re-run of handleCallback on a database in which the
matching attempt is already the updated row and re-updating is a no-op. -/
theorem handleCallback_rerun (db1 : DB) (cbData : CallbackData) (p' : Payment)
    (h0 : cbData.stkCallback.resultCode = 0)
    (hf1 : findPaymentByCheckout db1 cbData.stkCallback.checkoutRequestID
      = some p')
    (happ : applySuccess p' cbData = p')
    (hupd : updatePayment db1 p' = db1) :
    handleCallback db1 cbData =
      match findInvoiceById db1 p'.invoice_id with
      | none => (db1, HandleResult.failure "Cannot read properties of null")
      | some invoice => (settleInvoiceIfPaid db1 invoice, HandleResult.ok) := by
  rw [handleCallback_success_eq db1 cbData p' hf1 h0, happ, hupd]

/-- Claim C9: invoking the callback transition twice with byte-identical
success payloads yields exactly the same final database — the same attempt
row and the same invoice row — as invoking it once.  (The second invocation
re-applies the same writes rather than being skipped by a terminal-state
guard, but the resulting state is identical.) -/
theorem C9_success_callback_idempotent (db : DB) (cbData : CallbackData)
    (h0 : cbData.stkCallback.resultCode = 0) :
    handleCallback (handleCallback db cbData).1 cbData
      = handleCallback db cbData := by
  cases hf : findPaymentByCheckout db cbData.stkCallback.checkoutRequestID with
  | none =>
    have h1 : handleCallback db cbData
        = (db, HandleResult.failure "Payment not found") := by
      simp [handleCallback, hf]
    rw [h1]
    exact h1
  | some p =>
    have hcid : p.checkout_request_id
        = some cbData.stkCallback.checkoutRequestID := by
      simpa using List.find?_some hf
    have hf1 : findPaymentByCheckout (updatePayment db (applySuccess p cbData))
        cbData.stkCallback.checkoutRequestID = some (applySuccess p cbData) :=
      find?_cid_map_update db.payments _ p (applySuccess p cbData) hf rfl hcid
    rw [handleCallback_success_eq db cbData p hf h0]
    cases hi : findInvoiceById (updatePayment db (applySuccess p cbData))
        p.invoice_id with
    | none =>
      have hi' : findInvoiceById (updatePayment db (applySuccess p cbData))
          (applySuccess p cbData).invoice_id = none := hi
      have h2 : handleCallback (updatePayment db (applySuccess p cbData)) cbData
          = (updatePayment db (applySuccess p cbData),
             HandleResult.failure "Cannot read properties of null") := by
        rw [handleCallback_rerun (updatePayment db (applySuccess p cbData))
          cbData (applySuccess p cbData) h0 hf1 (applySuccess_idem p cbData)
          (updatePayment_idem db (applySuccess p cbData)), hi']
      exact h2
    | some invoice =>
      have hki : invoice.id = p.invoice_id := by
        simpa using List.find?_some hi
      by_cases hc : sumCompleted (updatePayment db (applySuccess p cbData))
          invoice.id ≥ invoice.amount
      · have hset : settleInvoiceIfPaid (updatePayment db (applySuccess p cbData))
            invoice
            = setInvoiceStatus (updatePayment db (applySuccess p cbData))
                invoice.id InvStatus.paid := by
          simp [settleInvoiceIfPaid, hc]
        have hfF : findPaymentByCheckout
            (setInvoiceStatus (updatePayment db (applySuccess p cbData))
              invoice.id InvStatus.paid)
            cbData.stkCallback.checkoutRequestID = some (applySuccess p cbData) :=
          hf1
        have hupdF : updatePayment
            (setInvoiceStatus (updatePayment db (applySuccess p cbData))
              invoice.id InvStatus.paid)
            (applySuccess p cbData)
            = setInvoiceStatus (updatePayment db (applySuccess p cbData))
                invoice.id InvStatus.paid := by
          unfold updatePayment setInvoiceStatus
          congr 1
          exact map_update_idem db.payments (applySuccess p cbData)
        have hiF : findInvoiceById
            (setInvoiceStatus (updatePayment db (applySuccess p cbData))
              invoice.id InvStatus.paid)
            (applySuccess p cbData).invoice_id
            = some { invoice with status := InvStatus.paid } := by
          have hkey : (applySuccess p cbData).invoice_id = invoice.id := hki.symm
          rw [hkey]
          have hbase : findInvoiceById (updatePayment db (applySuccess p cbData))
              invoice.id = some invoice := by
            rw [hki]; exact hi
          exact find?_inv_map_set _ invoice.id InvStatus.paid invoice hbase
        have hsettleF : settleInvoiceIfPaid
            (setInvoiceStatus (updatePayment db (applySuccess p cbData))
              invoice.id InvStatus.paid)
            { invoice with status := InvStatus.paid }
            = setInvoiceStatus (updatePayment db (applySuccess p cbData))
                invoice.id InvStatus.paid := by
          unfold settleInvoiceIfPaid
          rw [if_pos]
          · exact setInvoiceStatus_idem (updatePayment db (applySuccess p cbData))
              invoice.id InvStatus.paid
          · exact hc
        have h2 : handleCallback
            (setInvoiceStatus (updatePayment db (applySuccess p cbData))
              invoice.id InvStatus.paid) cbData
            = (setInvoiceStatus (updatePayment db (applySuccess p cbData))
                invoice.id InvStatus.paid, HandleResult.ok) := by
          rw [handleCallback_rerun
            (setInvoiceStatus (updatePayment db (applySuccess p cbData))
              invoice.id InvStatus.paid)
            cbData (applySuccess p cbData) h0 hfF (applySuccess_idem p cbData)
            hupdF, hiF]
          show (settleInvoiceIfPaid
              (setInvoiceStatus (updatePayment db (applySuccess p cbData))
                invoice.id InvStatus.paid)
              { invoice with status := InvStatus.paid }, HandleResult.ok)
            = (setInvoiceStatus (updatePayment db (applySuccess p cbData))
                invoice.id InvStatus.paid, HandleResult.ok)
          rw [hsettleF]
        show handleCallback
            (settleInvoiceIfPaid (updatePayment db (applySuccess p cbData))
              invoice) cbData
          = (settleInvoiceIfPaid (updatePayment db (applySuccess p cbData))
              invoice, HandleResult.ok)
        rw [hset]
        exact h2
      · have hset : settleInvoiceIfPaid (updatePayment db (applySuccess p cbData))
            invoice = updatePayment db (applySuccess p cbData) := by
          simp [settleInvoiceIfPaid, hc]
        have hi' : findInvoiceById (updatePayment db (applySuccess p cbData))
            (applySuccess p cbData).invoice_id = some invoice := hi
        have h2 : handleCallback (updatePayment db (applySuccess p cbData)) cbData
            = (updatePayment db (applySuccess p cbData), HandleResult.ok) := by
          rw [handleCallback_rerun (updatePayment db (applySuccess p cbData))
            cbData (applySuccess p cbData) h0 hf1 (applySuccess_idem p cbData)
            (updatePayment_idem db (applySuccess p cbData)), hi']
          show (settleInvoiceIfPaid (updatePayment db (applySuccess p cbData))
              invoice, HandleResult.ok)
            = (updatePayment db (applySuccess p cbData), HandleResult.ok)
          rw [hset]
        show handleCallback
            (settleInvoiceIfPaid (updatePayment db (applySuccess p cbData))
              invoice) cbData
          = (settleInvoiceIfPaid (updatePayment db (applySuccess p cbData))
              invoice, HandleResult.ok)
        rw [hset]
        exact h2

/-- Witness for C9_success_callback_idempotent: a concrete double success
callback with full metadata. -/
theorem C9_success_callback_idempotent_witness :
    handleCallback
        (handleCallback dbPending
          (cbWith 0 (some [⟨"Amount", JVal.num 500⟩,
                           ⟨"MpesaReceiptNumber", JVal.str "QWE123"⟩,
                           ⟨"PhoneNumber", JVal.num 254712345678⟩,
                           ⟨"TransactionDate", JVal.num 20250101120000⟩]))).1
        (cbWith 0 (some [⟨"Amount", JVal.num 500⟩,
                         ⟨"MpesaReceiptNumber", JVal.str "QWE123"⟩,
                         ⟨"PhoneNumber", JVal.num 254712345678⟩,
                         ⟨"TransactionDate", JVal.num 20250101120000⟩]))
      = handleCallback dbPending
          (cbWith 0 (some [⟨"Amount", JVal.num 500⟩,
                           ⟨"MpesaReceiptNumber", JVal.str "QWE123"⟩,
                           ⟨"PhoneNumber", JVal.num 254712345678⟩,
                           ⟨"TransactionDate", JVal.num 20250101120000⟩])) :=
  C9_success_callback_idempotent dbPending
    (cbWith 0 (some [⟨"Amount", JVal.num 500⟩,
                     ⟨"MpesaReceiptNumber", JVal.str "QWE123"⟩,
                     ⟨"PhoneNumber", JVal.num 254712345678⟩,
                     ⟨"TransactionDate", JVal.num 20250101120000⟩])) rfl
